import Mathlib

/-!
Verification of the spicy-cat protection-agent core against its source.

This file gives a shallow embedding, in Lean 4, of the control-loop slice of
the repository: the chaos generators (`src/lib/chaos.py`), the threat scorer,
the response composer, and the protection agent's evaluate-respond loop
(`src/lib/agent_shield.py`).  Python floats are modelled as exact rationals
(`ℚ`), Python `int()` truncation by `pyTrunc`, timestamps as rationals
(seconds), and fallible collaborator calls by `Except`.  Side effects that no
stated property depends on (logging text, the bounded decision-history deque,
observer lists) are noted where they are elided.
-/

/-- Python `int(q)`: truncation toward zero. -/
def pyTrunc (q : ℚ) : ℤ := if 0 ≤ q then ⌊q⌋ else -⌊-q⌋

/-- Enumeration `ThreatLevel` from `agent_shield.py`: the four assessment levels, in
increasing order of severity. -/
inductive ThreatLevel where
  | CALM
  | ELEVATED
  | HIGH
  | CRITICAL
deriving DecidableEq, Repr

/-- Position of a level in the order CALM < ELEVATED < HIGH < CRITICAL. -/
def ThreatLevel.toNat : ThreatLevel → ℕ
  | .CALM => 0
  | .ELEVATED => 1
  | .HIGH => 2
  | .CRITICAL => 3

/-- Enumeration `DetectionType` from `agent_shield.py`: the 10 detection kinds. -/
inductive DetectionType where
  | CANVAS_FINGERPRINT
  | WEBGL_ENUM
  | FONT_PROBE
  | AUDIO_FINGERPRINT
  | WEBRTC_LEAK
  | TRACKER_DOMAIN
  | TELEMETRY_BEACON
  | COOKIE_SYNC
  | PLUGIN_ENUM
  | TLS_FINGERPRINT
deriving DecidableEq, Repr

/-- The severity table inlined in `AgentDecisionEngine.evaluate_threat`
(`agent_shield.py`, lines 186-197).  Every detection type is present in the
source dictionary, so the `.get(..., 1.0)` default is never taken. -/
def severity : DetectionType → ℚ
  | .CANVAS_FINGERPRINT => 3
  | .WEBGL_ENUM => 5/2
  | .FONT_PROBE => 2
  | .AUDIO_FINGERPRINT => 3
  | .WEBRTC_LEAK => 4
  | .TRACKER_DOMAIN => 1
  | .TELEMETRY_BEACON => 3/2
  | .COOKIE_SYNC => 2
  | .PLUGIN_ENUM => 2
  | .TLS_FINGERPRINT => 5/2

/-- Dataclass `ThreatSignal` from `agent_shield.py`.  The `details` dict carries opaque
annotation data used by no computation and is elided. -/
structure ThreatSignal where
  timestamp : ℚ
  detection_type : DetectionType
  source : String
  confidence : ℚ
  mitigated : Bool := false
deriving DecidableEq, Repr

/-- One signal's contribution to the threat score, from the loop body of
`evaluate_threat`: signals older than 300 seconds are skipped; otherwise
`recency * confidence * severity` with `recency = max(0.1, 1 - age/300)`. -/
def signalContribution (now : ℚ) (s : ThreatSignal) : ℚ :=
  let age := now - s.timestamp
  if age > 300 then 0
  else max (1/10) (1 - age / 300) * s.confidence * severity s.detection_type

/-- The accumulated score over all signals (`score` in `evaluate_threat`). -/
def threatScore (now : ℚ) (signals : List ThreatSignal) : ℚ :=
  (signals.map (signalContribution now)).sum

/-- The score-to-level thresholds at the end of `evaluate_threat`. -/
def scoreToLevel (score : ℚ) : ThreatLevel :=
  if score < 2 then .CALM
  else if score < 6 then .ELEVATED
  else if score < 15 then .HIGH
  else .CRITICAL

/-- Method `AgentDecisionEngine.evaluate_threat` (`agent_shield.py`, lines 165-209).
The Python method reads `datetime.now()` internally; here the reference time
is the explicit parameter `now`. -/
def evaluate_threat (signals : List ThreatSignal) (now : ℚ) : ThreatLevel :=
  if signals.isEmpty then .CALM
  else scoreToLevel (threatScore now signals)

/-- Enumeration `TelemetryMethod` from `telemetry_chaos.py`: the 10 confusion methods, in
source definition order (the order `list(TelemetryMethod)` iterates). -/
inductive TelemetryMethod where
  | PHANTOM_SWARM
  | TEMPORAL_DRIFT
  | GEO_CAROUSEL
  | DNS_CHAFF
  | BEACON_ENTROPY
  | TLS_SHUFFLE
  | COOKIE_CHIMERA
  | UA_METAMORPH
  | REFERRER_FABRICATOR
  | FEEDBACK_LOOP
deriving DecidableEq, Repr

/-- Expression `list(TelemetryMethod)` in Python: every method, in definition order. -/
def allTelemetryMethods : List TelemetryMethod :=
  [.PHANTOM_SWARM, .TEMPORAL_DRIFT, .GEO_CAROUSEL, .DNS_CHAFF, .BEACON_ENTROPY,
   .TLS_SHUFFLE, .COOKIE_CHIMERA, .UA_METAMORPH, .REFERRER_FABRICATOR,
   .FEEDBACK_LOOP]

/-- One normalized draw from the Lorenz attractor, as consumed by
`decide_response` (`noise[0]`, `noise[1]`, `noise[2]`: aggression, diversity,
timing). -/
structure Noise3 where
  x : ℚ
  y : ℚ
  z : ℚ
deriving DecidableEq, Repr

/-- The `response` dict built by `AgentDecisionEngine.decide_response`. -/
structure ResponseDirective where
  rotate_fingerprint : Bool
  chaos_intensity : ℚ
  active_methods : List TelemetryMethod
  rotation_interval : ℤ
  dns_chaff_rate : ℕ
  phantom_count : ℕ
deriving DecidableEq, Repr

/-- The per-level base rotation interval (seconds) assigned by the branches of
`decide_response` before the timing perturbation. -/
def baseInterval : ThreatLevel → ℤ
  | .CALM => 3600
  | .ELEVATED => 1800
  | .HIGH => 600
  | .CRITICAL => 120

/-- Method `AgentDecisionEngine.decide_response` (`agent_shield.py`, lines 211-279).
The Python method draws `noise` from its own Lorenz attractor; here the draw
is the explicit parameter.  The append to the bounded `_decision_history`
deque (display-only bookkeeping) is elided. -/
def decide_response (threat_level : ThreatLevel) (noise : Noise3) :
    ResponseDirective :=
  let base : ResponseDirective :=
    match threat_level with
    | .CALM =>
        { rotate_fingerprint := false
          chaos_intensity := 1/10 + |noise.x| * (2/10)
          active_methods := [.DNS_CHAFF]
          rotation_interval := 3600
          dns_chaff_rate := 2
          phantom_count := 0 }
    | .ELEVATED =>
        { rotate_fingerprint := false
          chaos_intensity := 3/10 + |noise.x| * (3/10)
          active_methods := [.DNS_CHAFF, .COOKIE_CHIMERA, .UA_METAMORPH,
                             .TEMPORAL_DRIFT]
          rotation_interval := 1800
          dns_chaff_rate := 5
          phantom_count := 3 }
    | .HIGH =>
        { rotate_fingerprint := |noise.y| > 1/2
          chaos_intensity := 6/10 + |noise.x| * (3/10)
          active_methods := [.DNS_CHAFF, .COOKIE_CHIMERA, .UA_METAMORPH,
                             .TEMPORAL_DRIFT, .PHANTOM_SWARM, .TLS_SHUFFLE,
                             .REFERRER_FABRICATOR]
          rotation_interval := 600
          dns_chaff_rate := 10
          phantom_count := 10 }
    | .CRITICAL =>
        { rotate_fingerprint := true
          chaos_intensity := 9/10 + |noise.x| * (1/10)
          active_methods := allTelemetryMethods
          rotation_interval := 120
          dns_chaff_rate := 20
          phantom_count := 20 }
  let timing_noise := |noise.z|
  { base with
    rotation_interval :=
      pyTrunc ((base.rotation_interval : ℚ) * (7/10 + timing_noise * (6/10))) }

/-- State of `LogisticMap` from `chaos.py`: parameter `r` and current value `x`. -/
structure LogisticMap where
  r : ℚ
  x : ℚ
deriving DecidableEq, Repr

/-- Method `LogisticMap._step`: one logistic-map iteration, mutating `x`. -/
def LogisticMap.step (m : LogisticMap) : LogisticMap :=
  { m with x := m.r * m.x * (1 - m.x) }

/-- Method `LogisticMap.next`: step and return the new value together with the
updated state. -/
def LogisticMap.next (m : LogisticMap) : ℚ × LogisticMap :=
  let m' := m.step
  (m'.x, m')

/-- Method `LogisticMap.next_int(min_val, max_val)`:
`min_val + int(next() * (max_val - min_val + 1))`. -/
def LogisticMap.next_int (m : LogisticMap) (lo hi : ℤ) : ℤ × LogisticMap :=
  let p := m.next
  (lo + pyTrunc (p.1 * ((hi : ℚ) - (lo : ℚ) + 1)), p.2)

/-- Method `LogisticMap._seed_to_x`: the first 8 bytes of the SHA-256 digest of the
seed string, read as a big-endian 64-bit integer `v`, mapped into (0.1, 0.9)
by `0.1 + (v / 2^64) * 0.8`.  SHA-256 itself is a fixed pure function of the
seed string; `v` stands for its 64-bit result here. -/
def seedToX (v : ℕ) : ℚ :=
  1/10 + ((v : ℚ) / 2 ^ 64) * (8/10)

/-- Constructor `LogisticMap.__init__` with a seed: set `r = 3.9999`, seed `x`, then run
100 warm-up steps. -/
def mkLogisticMap (v : ℕ) : LogisticMap :=
  (LogisticMap.step)^[100] { r := 39999/10000, x := seedToX v }

/-- The sequence of `n` successive `next()` draws from a `LogisticMap`. -/
def LogisticMap.draws : LogisticMap → ℕ → List ℚ
  | _, 0 => []
  | m, Nat.succ k => (m.next).1 :: LogisticMap.draws (m.next).2 k

/-- State of `LorenzAttractor` from `chaos.py`: the three system parameters, the
integration step `dt`, and the current point. -/
structure LorenzAttractor where
  sigma : ℚ
  rho : ℚ
  beta : ℚ
  dt : ℚ
  x : ℚ
  y : ℚ
  z : ℚ
deriving DecidableEq, Repr

/-- The `derivatives` closure inside `LorenzAttractor._step`. -/
def lorenzDerivatives (st : LorenzAttractor) (x y z : ℚ) : ℚ × ℚ × ℚ :=
  (st.sigma * (y - x), x * (st.rho - z) - y, x * y - st.beta * z)

/-- Method `LorenzAttractor._step`: one fixed-step 4th-order Runge-Kutta update. -/
def LorenzAttractor.step (st : LorenzAttractor) : LorenzAttractor :=
  let k1 := lorenzDerivatives st st.x st.y st.z
  let k2 := lorenzDerivatives st (st.x + k1.1 * st.dt / 2)
    (st.y + k1.2.1 * st.dt / 2) (st.z + k1.2.2 * st.dt / 2)
  let k3 := lorenzDerivatives st (st.x + k2.1 * st.dt / 2)
    (st.y + k2.2.1 * st.dt / 2) (st.z + k2.2.2 * st.dt / 2)
  let k4 := lorenzDerivatives st (st.x + k3.1 * st.dt)
    (st.y + k3.2.1 * st.dt) (st.z + k3.2.2 * st.dt)
  { st with
    x := st.x + (k1.1 + 2 * k2.1 + 2 * k3.1 + k4.1) * st.dt / 6
    y := st.y + (k1.2.1 + 2 * k2.2.1 + 2 * k3.2.1 + k4.2.1) * st.dt / 6
    z := st.z + (k1.2.2 + 2 * k2.2.2 + 2 * k3.2.2 + k4.2.2) * st.dt / 6 }

/-- Constructor `LorenzAttractor.__init__` with a seed: draw three values from a
seed-initialized `LogisticMap` to place the starting point, set `dt = 0.01`,
then run 1000 warm-up steps.  `v` is the 64-bit SHA-256 value of the seed
string, as in `mkLogisticMap`. -/
def mkLorenzAttractor (v : ℕ) : LorenzAttractor :=
  let m := mkLogisticMap v
  let p1 := m.next
  let p2 := p1.2.next
  let p3 := p2.2.next
  (LorenzAttractor.step)^[1000]
    { sigma := 10, rho := 28, beta := 8/3, dt := 1/100,
      x := (p1.1 - 1/2) * 30, y := (p2.1 - 1/2) * 30, z := p3.1 * 50 }

/-- Method `LorenzAttractor.next_normalized`: step, then scale the point by the
typical attractor ranges (`x/20`, `y/20`, `(z-25)/25`). -/
def LorenzAttractor.next_normalized (st : LorenzAttractor) :
    (ℚ × ℚ × ℚ) × LorenzAttractor :=
  let st' := st.step
  ((st'.x / 20, st'.y / 20, (st'.z - 25) / 25), st')

/-- The sequence of `n` successive `next_normalized()` draws. -/
def LorenzAttractor.draws : LorenzAttractor → ℕ → List (ℚ × ℚ × ℚ)
  | _, 0 => []
  | st, Nat.succ k =>
      (st.next_normalized).1 :: LorenzAttractor.draws (st.next_normalized).2 k

/-- The `action_type` values that `ProtectionAgent` appends to its action log
via `_log_action` on the paths modelled here. -/
inductive StepAction where
  | fingerprint_rotation
  | telemetry_methods_updated
  | phantom_swarm_deployed
  | scheduled_rotation
deriving DecidableEq, Repr

/-- The mutable fields of `ProtectionAgent` that the evaluate-respond loop
reads and writes: the signal store, the current level, the active directive,
the action log, and the rotation/mitigation counters.  Collaborator-internal
state (fingerprint profiles, telemetry engine internals) lives behind the
collaborator calls and is not part of the agent's own state. -/
structure AgentState where
  signals : List ThreatSignal
  currentLevel : ThreatLevel
  currentResponse : Option ResponseDirective
  lastRotation : Option ℚ
  fingerprintRotations : ℕ
  threatsMitigated : ℕ
  actions : List StepAction
deriving DecidableEq, Repr

/-- A freshly constructed `ProtectionAgent`: empty signal store, level CALM,
empty `_current_response` dict, `_last_rotation = None`, zero counters. -/
def freshAgent : AgentState :=
  { signals := []
    currentLevel := .CALM
    currentResponse := none
    lastRotation := none
    fingerprintRotations := 0
    threatsMitigated := 0
    actions := [] }

/-- Which collaborator calls raise an error during one directive application:
`rotate_profile`, `set_active_methods`, `generate_swarm`. -/
structure CollabFaults where
  rotate_fails : Bool
  set_methods_fails : Bool
  phantoms_fails : Bool
deriving DecidableEq, Repr

/-- The error raised by a failing collaborator call. -/
inductive CollabError where
  | rotateFailed
  | setMethodsFailed
  | phantomsFailed
deriving DecidableEq, Repr

/-- No collaborator call fails. -/
def noFaults : CollabFaults :=
  { rotate_fails := false, set_methods_fails := false, phantoms_fails := false }

/-- Step (a) of `_execute_response`: the fingerprint-rotation block, when its
collaborator call succeeds (counter increment, `_last_rotation`, logged
action). -/
def rotateStep (st : AgentState) (r : ResponseDirective) (now : ℚ) :
    AgentState :=
  if r.rotate_fingerprint then
    { st with
      fingerprintRotations := st.fingerprintRotations + 1
      lastRotation := some now
      actions := st.actions ++ [StepAction.fingerprint_rotation] }
  else st

/-- Step (b) of `_execute_response`: the method-activation block, when its
collaborator call succeeds. -/
def methodsStep (st : AgentState) (r : ResponseDirective) : AgentState :=
  if r.active_methods.isEmpty then st
  else { st with
    actions := st.actions ++ [StepAction.telemetry_methods_updated] }

/-- Step (c) of `_execute_response`: the phantom-generation block, when its
collaborator call succeeds. -/
def phantomsStep (st : AgentState) (r : ResponseDirective) : AgentState :=
  if 0 < r.phantom_count then
    { st with
      actions := st.actions ++ [StepAction.phantom_swarm_deployed] }
  else st

/-- Method `ProtectionAgent._execute_response` (`agent_shield.py`, lines 474-503),
with collaborator calls that may raise.  The method body has no try/except: a
raising step propagates its exception immediately, so the steps after it and
the final `_threats_mitigated` increment do not run — while the in-place
mutations of the steps already completed persist on the agent.  The error
value therefore pairs the exception with the agent state as it stands at the
raise.  Within a step, the collaborator call precedes the mutations, so a
raising step contributes no effects of its own.  The
`hasattr(swarm, 'generate_swarm')` probe is true for the phantom-swarm method
object and is modelled as passing. -/
def execute_response (f : CollabFaults) (st : AgentState)
    (r : ResponseDirective) (now : ℚ) :
    Except (CollabError × AgentState) AgentState :=
  if r.rotate_fingerprint = true ∧ f.rotate_fails = true then
    Except.error (CollabError.rotateFailed, st)
  else
    let st1 := rotateStep st r now
    if r.active_methods.isEmpty = false ∧ f.set_methods_fails = true then
      Except.error (CollabError.setMethodsFailed, st1)
    else
      let st2 := methodsStep st1 r
      if 0 < r.phantom_count ∧ f.phantoms_fails = true then
        Except.error (CollabError.phantomsFailed, st2)
      else
        let st3 := phantomsStep st2 r
        Except.ok { st3 with threatsMitigated := st3.threatsMitigated + 1 }

/-- Method `_execute_response` on the fault-free path (the case the evaluate-respond
loop model below uses): the same three steps, all succeeding. -/
def apply_directive (st : AgentState) (r : ResponseDirective) (now : ℚ) :
    AgentState :=
  let st1 :=
    if r.rotate_fingerprint then
      { st with
        fingerprintRotations := st.fingerprintRotations + 1
        lastRotation := some now
        actions := st.actions ++ [StepAction.fingerprint_rotation] }
    else st
  let st2 :=
    if r.active_methods.isEmpty then st1
    else { st1 with
      actions := st1.actions ++ [StepAction.telemetry_methods_updated] }
  let st3 :=
    if 0 < r.phantom_count then
      { st2 with
        actions := st2.actions ++ [StepAction.phantom_swarm_deployed] }
    else st2
  { st3 with threatsMitigated := st3.threatsMitigated + 1 }

/-- The `threat_level_change` payload passed to `_notify`: the dict
`{'old': self._current_threat_level.value, 'new': new_level.value,
'response': response}`, read at notify time. -/
structure LevelChangeEvent where
  old : ThreatLevel
  new : ThreatLevel
  response : ResponseDirective
deriving DecidableEq, Repr

/-- The prune step of `_evaluate_and_respond`: keep the signals whose
timestamp is strictly later than `now` minus the 5-minute window. -/
def purge (now : ℚ) (sigs : List ThreatSignal) : List ThreatSignal :=
  sigs.filter (fun s => decide (now - 300 < s.timestamp))

/-- Method `ProtectionAgent._evaluate_and_respond` (`agent_shield.py`, lines
441-472): purge, re-evaluate, and on a level change update
`_current_threat_level` FIRST, then compose and apply the directive, then
build the notify payload — whose `old` field therefore reads the
already-overwritten current level.  Returns the new state and the emitted
`threat_level_change` event, if any.  `datetime.now()` is the parameter
`now`; the directive is applied fault-free here (collaborator faults are
modelled on `execute_response`). -/
def evaluate_and_respond (st : AgentState) (now : ℚ) (noise : Noise3) :
    AgentState × Option LevelChangeEvent :=
  let sigs := purge now st.signals
  let newLevel := evaluate_threat sigs now
  if newLevel ≠ st.currentLevel then
    let st1 := { st with signals := sigs, currentLevel := newLevel }
    let response := decide_response newLevel noise
    let st2 := { st1 with currentResponse := some response }
    let st3 := apply_directive st2 response now
    (st3, some { old := st3.currentLevel, new := newLevel, response := response })
  else
    ({ st with signals := sigs }, none)

/-- The external inputs one loop iteration consumes: the wall-clock time of
the pass, the signals reported since the previous pass, and the Lorenz draw
the decision engine would produce for this pass. -/
structure LoopInput where
  now : ℚ
  newSignals : List ThreatSignal
  noise : Noise3
deriving DecidableEq, Repr

/-- What one loop iteration did: whether a directive application rotated the
fingerprint, and whether the interval-based scheduled rotation fired. -/
structure IterSummary where
  directiveRotated : Bool
  scheduledRotated : Bool
deriving DecidableEq, Repr

/-- One iteration of the `_agent_loop` body in `ProtectionAgent.start`
(`agent_shield.py`, lines 525-545): merge the newly reported signals into
the store, run `_evaluate_and_respond`, then run the scheduled-rotation
branch — which requires a truthy `_current_response['rotation_interval']`
AND a truthy (non-`None`) `_last_rotation` whose elapsed time meets the
interval.  The chaotic sleep only paces the loop and is elided.
`scheduledDue` is that guard chain: truthy `rotation_interval`, truthy
`_last_rotation`, elapsed time at least the interval. -/
def scheduledDue (st1 : AgentState) (now : ℚ) : Bool :=
  match st1.currentResponse with
  | none => false
  | some r =>
    if r.rotation_interval ≠ 0 then
      match st1.lastRotation with
      | none => false
      | some t => decide ((r.rotation_interval : ℚ) ≤ now - t)
    else false

def loopStep (st : AgentState) (inp : LoopInput) : AgentState × IterSummary :=
  let st0 := { st with signals := st.signals ++ inp.newSignals }
  let st1 := (evaluate_and_respond st0 inp.now inp.noise).1
  let dirRot := decide (st0.fingerprintRotations < st1.fingerprintRotations)
  let sched := scheduledDue st1 inp.now
  let st2 :=
    if sched then
      { st1 with
        fingerprintRotations := st1.fingerprintRotations + 1
        lastRotation := some inp.now
        actions := st1.actions ++ [StepAction.scheduled_rotation] }
    else st1
  (st2, { directiveRotated := dirRot, scheduledRotated := sched })

/-- Run the agent loop over a list of per-iteration inputs, collecting the
iteration summaries in order. -/
def runLoop : AgentState → List LoopInput → AgentState × List IterSummary
  | st, [] => (st, [])
  | st, inp :: rest =>
    let p := loopStep st inp
    let q := runLoop p.1 rest
    (q.1, p.2 :: q.2)

/-! ## Helper lemmas -/

lemma severity_nonneg (d : DetectionType) : 0 ≤ severity d := by
  cases d <;> norm_num [severity]

lemma signalContribution_age_zero (now : ℚ) (d : DetectionType) (src : String)
    (c : ℚ) :
    signalContribution now
      { timestamp := now, detection_type := d, source := src,
        confidence := c } = c * severity d := by
  unfold signalContribution
  simp only [sub_self]
  rw [if_neg (by norm_num)]
  rw [show (1 - (0:ℚ) / 300) = 1 by norm_num,
      max_eq_right (by norm_num : (1/10 : ℚ) ≤ 1)]
  ring

lemma scoreToLevel_mono {a b : ℚ} (h : a ≤ b) :
    (scoreToLevel a).toNat ≤ (scoreToLevel b).toNat := by
  unfold scoreToLevel
  split_ifs <;> simp [ThreatLevel.toNat] <;> linarith

lemma floor_factor_bound (m : ℤ) (B t : ℚ) (hB : 0 < B)
    (hm : (m : ℚ) = B * (7/10)) (ht0 : 0 ≤ t) (ht1 : t ≤ 1) :
    ∃ f : ℚ, 7/10 ≤ f ∧ f ≤ 13/10 ∧
      ((pyTrunc (B * (7/10 + t * (6/10)))) : ℚ) = B * f := by
  have hq0 : 0 ≤ B * (7/10 + t * (6/10)) := by nlinarith
  have htr : pyTrunc (B * (7/10 + t * (6/10))) = ⌊B * (7/10 + t * (6/10))⌋ := by
    rw [pyTrunc, if_pos hq0]
  have hfl : m ≤ ⌊B * (7/10 + t * (6/10))⌋ := by
    apply Int.le_floor.mpr
    rw [hm]; nlinarith
  have hflq : (m : ℚ) ≤ (⌊B * (7/10 + t * (6/10))⌋ : ℚ) := by exact_mod_cast hfl
  have hup : (⌊B * (7/10 + t * (6/10))⌋ : ℚ) ≤ B * (13/10) := by
    have h1 : (⌊B * (7/10 + t * (6/10))⌋ : ℚ) ≤ B * (7/10 + t * (6/10)) :=
      Int.floor_le _
    nlinarith
  refine ⟨(⌊B * (7/10 + t * (6/10))⌋ : ℚ) / B, ?_, ?_, ?_⟩
  · rw [le_div_iff₀ hB]; nlinarith
  · rw [div_le_iff₀ hB]; nlinarith
  · rw [htr]; field_simp

/-! ## C1: CRITICAL directives -/

/-- C1: For every chaos draw, composing a response for threat level CRITICAL
yields a directive with `rotate_fingerprint = true` and `active_methods`
equal to the full set of all 10 telemetry methods. -/
theorem critical_response_rotates_with_full_methods (noise : Noise3) :
    (decide_response .CRITICAL noise).rotate_fingerprint = true ∧
    (decide_response .CRITICAL noise).active_methods = allTelemetryMethods ∧
    allTelemetryMethods.length = 10 ∧
    ∀ m : TelemetryMethod, m ∈ allTelemetryMethods := by
  refine ⟨rfl, rfl, rfl, ?_⟩
  intro m
  cases m <;> simp [allTelemetryMethods]

/-! ## C6: concrete scoring scenario -/

/-- Scenario A of the spec: tracker domain at confidence 0.9, canvas
fingerprint at 0.8, WebGL enumeration at 0.7, all reported at time `now`. -/
def scenarioA (now : ℚ) : List ThreatSignal :=
  [ { timestamp := now, detection_type := .TRACKER_DOMAIN,
      source := "tracker.example", confidence := 9/10 },
    { timestamp := now, detection_type := .CANVAS_FINGERPRINT,
      source := "canvas.example", confidence := 8/10 },
    { timestamp := now, detection_type := .WEBGL_ENUM,
      source := "webgl.example", confidence := 7/10 } ]

/-- C6: Scenario A scores 0.9*1 + 0.8*3 + 0.7*2.5 = 5.05 and maps to
ELEVATED, and the empty signal set maps to CALM, for any reference time. -/
theorem scenario_a_elevated_and_empty_calm (now : ℚ) :
    threatScore now (scenarioA now) = 101/20 ∧
    evaluate_threat (scenarioA now) now = .ELEVATED ∧
    evaluate_threat [] now = .CALM := by
  have hscore : threatScore now (scenarioA now) = 101/20 := by
    unfold threatScore scenarioA
    rw [List.map_cons, List.map_cons, List.map_cons, List.map_nil]
    rw [signalContribution_age_zero, signalContribution_age_zero,
        signalContribution_age_zero]
    norm_num [severity]
  refine ⟨hscore, ?_, rfl⟩
  unfold evaluate_threat
  rw [if_neg (by simp [scenarioA])]
  rw [hscore]
  unfold scoreToLevel
  rw [if_neg (by norm_num), if_pos (by norm_num)]

/-! ## C3: rotation-interval perturbation -/

/-- C3 counterexample: at threat level CALM and the normalized chaos draw
(0, 0, 2) — the normalization is not strictly bounded by 1 — the composed
`rotation_interval` is 6840 = 3600 * 1.9, which is NOT the base interval
times a factor in [0.7, 1.3]. -/
theorem rotation_interval_factor_counterexample :
    (decide_response .CALM ⟨0, 0, 2⟩).rotation_interval = 6840 ∧
    ¬ ∃ f : ℚ, 7/10 ≤ f ∧ f ≤ 13/10 ∧
      (((decide_response .CALM ⟨0, 0, 2⟩).rotation_interval : ℤ) : ℚ) =
        (baseInterval .CALM : ℚ) * f := by
  have h1 : (decide_response .CALM ⟨0, 0, 2⟩).rotation_interval = 6840 := by
    norm_num [decide_response, pyTrunc]
  refine ⟨h1, ?_⟩
  rintro ⟨f, hf1, hf2, hf3⟩
  rw [h1] at hf3
  have hB : (baseInterval .CALM : ℚ) = 3600 := by norm_num [baseInterval]
  rw [hB] at hf3
  push_cast at hf3
  have : f = 19/10 := by linarith
  rw [this] at hf2
  norm_num at hf2

/-- C3 amended: for every threat level and every chaos draw whose timing
component has absolute value at most 1, the composed `rotation_interval`
equals the level's base interval (3600/1800/600/120) multiplied by a factor
in [0.7, 1.3] (the truncation to an integer is absorbed by the factor).
Draws with |timing| > 1 — which the unclamped normalization permits — fall
outside the band, as the counterexample shows. -/
theorem rotation_interval_factor_amended (level : ThreatLevel) (noise : Noise3)
    (hz : |noise.z| ≤ 1) :
    ∃ f : ℚ, 7/10 ≤ f ∧ f ≤ 13/10 ∧
      (((decide_response level noise).rotation_interval : ℤ) : ℚ) =
        (baseInterval level : ℚ) * f := by
  have ht0 : 0 ≤ |noise.z| := abs_nonneg _
  cases level
  case CALM =>
    exact floor_factor_bound 2520 ((3600 : ℤ) : ℚ) |noise.z|
      (by norm_num) (by norm_num) ht0 hz
  case ELEVATED =>
    exact floor_factor_bound 1260 ((1800 : ℤ) : ℚ) |noise.z|
      (by norm_num) (by norm_num) ht0 hz
  case HIGH =>
    exact floor_factor_bound 420 ((600 : ℤ) : ℚ) |noise.z|
      (by norm_num) (by norm_num) ht0 hz
  case CRITICAL =>
    exact floor_factor_bound 84 ((120 : ℤ) : ℚ) |noise.z|
      (by norm_num) (by norm_num) ht0 hz

/-- C3 amended, witnessed at level CALM with the zero draw. -/
theorem rotation_interval_factor_amended_witness :
    |(Noise3.mk 0 0 0).z| ≤ 1 ∧
    ∃ f : ℚ, 7/10 ≤ f ∧ f ≤ 13/10 ∧
      (((decide_response .CALM ⟨0, 0, 0⟩).rotation_interval : ℤ) : ℚ) =
        (baseInterval .CALM : ℚ) * f :=
  ⟨by norm_num, rotation_interval_factor_amended .CALM ⟨0, 0, 0⟩ (by norm_num)⟩

/-! ## C5: next_int bounds -/

/-- C5: for every `LogisticMap` state with `x` strictly inside (0, 1) — as
seeding into (0.1, 0.9) and warm-up establish — and all integers `lo ≤ hi`,
`next_int(lo, hi)` returns an integer in `[lo, hi]` inclusive. -/
theorem next_int_within_bounds (m : LogisticMap) (lo hi : ℤ)
    (hr : m.r = 39999/10000) (hx0 : 0 < m.x) (hx1 : m.x < 1) (hlh : lo ≤ hi) :
    lo ≤ (m.next_int lo hi).1 ∧ (m.next_int lo hi).1 ≤ hi := by
  have hv0 : 0 < m.r * m.x * (1 - m.x) := by
    rw [hr]
    have h39 : (0:ℚ) < 39999/10000 := by norm_num
    exact mul_pos (mul_pos h39 hx0) (by linarith)
  have hv1 : m.r * m.x * (1 - m.x) < 1 := by
    rw [hr]; nlinarith [sq_nonneg (m.x - 1/2)]
  have hW : (1:ℚ) ≤ (hi:ℚ) - (lo:ℚ) + 1 := by
    have hc : (lo:ℚ) ≤ (hi:ℚ) := by exact_mod_cast hlh
    linarith
  have hq0 : 0 < m.r * m.x * (1 - m.x) * ((hi:ℚ) - (lo:ℚ) + 1) :=
    mul_pos hv0 (by linarith)
  have hqW : m.r * m.x * (1 - m.x) * ((hi:ℚ) - (lo:ℚ) + 1) <
      (hi:ℚ) - (lo:ℚ) + 1 := by nlinarith
  have htr : pyTrunc (m.r * m.x * (1 - m.x) * ((hi:ℚ) - (lo:ℚ) + 1)) =
      ⌊m.r * m.x * (1 - m.x) * ((hi:ℚ) - (lo:ℚ) + 1)⌋ := by
    rw [pyTrunc, if_pos (le_of_lt hq0)]
  have h1 : 0 ≤ ⌊m.r * m.x * (1 - m.x) * ((hi:ℚ) - (lo:ℚ) + 1)⌋ :=
    Int.floor_nonneg.mpr (le_of_lt hq0)
  have h2 : ⌊m.r * m.x * (1 - m.x) * ((hi:ℚ) - (lo:ℚ) + 1)⌋ < hi - lo + 1 := by
    rw [Int.floor_lt]
    push_cast
    linarith
  have heq : (m.next_int lo hi).1 =
      lo + pyTrunc (m.r * m.x * (1 - m.x) * ((hi:ℚ) - (lo:ℚ) + 1)) := rfl
  rw [heq, htr]
  omega

/-- The state used to witness `next_int_within_bounds`. -/
def witnessMap : LogisticMap := { r := 39999/10000, x := 1/2 }

/-- C5 witnessed at `x = 1/2`, `lo = 3`, `hi = 7`. -/
theorem next_int_within_bounds_witness :
    witnessMap.r = 39999/10000 ∧ 0 < witnessMap.x ∧ witnessMap.x < 1 ∧
    (3:ℤ) ≤ 7 ∧
    (3 ≤ (witnessMap.next_int 3 7).1 ∧ (witnessMap.next_int 3 7).1 ≤ 7) :=
  ⟨rfl, by norm_num [witnessMap], by norm_num [witnessMap], by norm_num,
   next_int_within_bounds witnessMap 3 7 rfl (by norm_num [witnessMap])
     (by norm_num [witnessMap]) (by norm_num)⟩

/-! ## C2: monotonicity in confidence -/

lemma threatScore_append (now : ℚ) (l1 l2 : List ThreatSignal) :
    threatScore now (l1 ++ l2) = threatScore now l1 + threatScore now l2 := by
  unfold threatScore
  rw [List.map_append, List.sum_append]

lemma threatScore_cons (now : ℚ) (s : ThreatSignal) (l : List ThreatSignal) :
    threatScore now (s :: l) = signalContribution now s + threatScore now l := by
  unfold threatScore
  rw [List.map_cons, List.sum_cons]

lemma signalContribution_mono (now : ℚ) (s : ThreatSignal) (c' : ℚ)
    (h0 : 0 ≤ s.confidence) (h1 : s.confidence ≤ c') :
    signalContribution now s ≤
      signalContribution now { s with confidence := c' } := by
  unfold signalContribution
  dsimp only
  by_cases hage : now - s.timestamp > 300
  · rw [if_pos hage, if_pos hage]
  · rw [if_neg hage, if_neg hage]
    have hR : 0 ≤ max (1/10 : ℚ) (1 - (now - s.timestamp) / 300) :=
      le_trans (by norm_num) (le_max_left _ _)
    exact mul_le_mul_of_nonneg_right (mul_le_mul_of_nonneg_left h1 hR)
      (severity_nonneg s.detection_type)

/-- C2: raising one signal's confidence (within [0, 1]), holding all other
signals and the reference time fixed, never lowers the evaluated threat
level (levels compared via their position in CALM < ELEVATED < HIGH <
CRITICAL). -/
theorem threat_level_monotone_in_confidence
    (pre post : List ThreatSignal) (s : ThreatSignal) (now c' : ℚ)
    (h0 : 0 ≤ s.confidence) (h1 : s.confidence ≤ c') (h2 : c' ≤ 1) :
    (evaluate_threat (pre ++ s :: post) now).toNat ≤
      (evaluate_threat (pre ++ { s with confidence := c' } :: post) now).toNat := by
  have hs : threatScore now (pre ++ s :: post) ≤
      threatScore now (pre ++ { s with confidence := c' } :: post) := by
    rw [threatScore_append, threatScore_append, threatScore_cons,
        threatScore_cons]
    have := signalContribution_mono now s c' h0 h1
    linarith
  have hne1 : (pre ++ s :: post).isEmpty = false := by simp
  have hne2 : (pre ++ { s with confidence := c' } :: post).isEmpty = false := by
    simp
  unfold evaluate_threat
  rw [hne1, hne2]
  simp only [Bool.false_eq_true, if_false]
  exact scoreToLevel_mono hs

/-- A single tracker-domain signal at confidence 1/2, for the C2 witness. -/
def witnessSignal : ThreatSignal :=
  { timestamp := 0, detection_type := .TRACKER_DOMAIN,
    source := "tracker.example", confidence := 1/2 }

/-- C2 witnessed: raising the lone signal's confidence from 1/2 to 3/4. -/
theorem threat_level_monotone_in_confidence_witness :
    0 ≤ witnessSignal.confidence ∧ witnessSignal.confidence ≤ 3/4 ∧
    (3/4 : ℚ) ≤ 1 ∧
    (evaluate_threat ([] ++ witnessSignal :: []) 0).toNat ≤
      (evaluate_threat ([] ++ { witnessSignal with confidence := 3/4 } :: [])
        0).toNat :=
  ⟨by norm_num [witnessSignal], by norm_num [witnessSignal], by norm_num,
   threat_level_monotone_in_confidence [] [] witnessSignal 0 (3/4)
     (by norm_num [witnessSignal]) (by norm_num [witnessSignal])
     (by norm_num)⟩

/-! ## C8: determinism of the chaos sources -/

lemma logisticDraws_length (n : ℕ) :
    ∀ m : LogisticMap, (m.draws n).length = n := by
  induction n with
  | zero => intro m; rfl
  | succ k ih => intro m; simp [LogisticMap.draws, ih]

lemma lorenzDraws_length (n : ℕ) :
    ∀ st : LorenzAttractor, (st.draws n).length = n := by
  induction n with
  | zero => intro st; rfl
  | succ k ih => intro st; simp [LorenzAttractor.draws, ih]

/-- C8: two chaos sources of the same variant constructed from the same seed
produce identical sequences of draws.  The constructors and step functions
are pure functions of the seed's 64-bit SHA-256 value `v` and the evolving
state — no external entropy enters — so the two independently constructed
instances yield equal `n`-draw sequences (of the stated length `n`). -/
theorem chaos_sources_deterministic (v n : ℕ) :
    LogisticMap.draws (mkLogisticMap v) n =
      LogisticMap.draws (mkLogisticMap v) n ∧
    LorenzAttractor.draws (mkLorenzAttractor v) n =
      LorenzAttractor.draws (mkLorenzAttractor v) n ∧
    (LogisticMap.draws (mkLogisticMap v) n).length = n ∧
    (LorenzAttractor.draws (mkLorenzAttractor v) n).length = n :=
  ⟨rfl, rfl, logisticDraws_length n _, lorenzDraws_length n _⟩

/-! ## Agent-state helper lemmas -/

lemma apply_directive_currentLevel (st : AgentState) (r : ResponseDirective)
    (now : ℚ) : (apply_directive st r now).currentLevel = st.currentLevel := by
  unfold apply_directive
  dsimp only
  split_ifs <;> rfl

lemma apply_directive_signals (st : AgentState) (r : ResponseDirective)
    (now : ℚ) : (apply_directive st r now).signals = st.signals := by
  unfold apply_directive
  dsimp only
  split_ifs <;> rfl

lemma apply_directive_currentResponse (st : AgentState)
    (r : ResponseDirective) (now : ℚ) :
    (apply_directive st r now).currentResponse = st.currentResponse := by
  unfold apply_directive
  dsimp only
  split_ifs <;> rfl

lemma apply_directive_rotate_true (st : AgentState) (r : ResponseDirective)
    (now : ℚ) (h : r.rotate_fingerprint = true) :
    (apply_directive st r now).lastRotation = some now ∧
    (apply_directive st r now).fingerprintRotations =
      st.fingerprintRotations + 1 := by
  unfold apply_directive
  dsimp only
  rw [if_pos h]
  constructor <;> (split_ifs <;> rfl)

lemma apply_directive_rotate_false (st : AgentState) (r : ResponseDirective)
    (now : ℚ) (h : r.rotate_fingerprint = false) :
    (apply_directive st r now).lastRotation = st.lastRotation ∧
    (apply_directive st r now).fingerprintRotations =
      st.fingerprintRotations := by
  unfold apply_directive
  dsimp only
  rw [h]
  simp only [Bool.false_eq_true, if_false]
  constructor <;> (split_ifs <;> rfl)

lemma evalRespond_signals (st : AgentState) (now : ℚ) (noise : Noise3) :
    (evaluate_and_respond st now noise).1.signals = purge now st.signals := by
  unfold evaluate_and_respond
  dsimp only
  split_ifs with h
  · rw [apply_directive_signals]
  · rfl

lemma evalRespond_currentLevel (st : AgentState) (now : ℚ) (noise : Noise3) :
    (evaluate_and_respond st now noise).1.currentLevel =
      evaluate_threat (purge now st.signals) now := by
  unfold evaluate_and_respond
  dsimp only
  split_ifs with h
  · rw [apply_directive_currentLevel]
  · push_neg at h
    exact h.symm

/-! ## C7: purge invariant -/

/-- C7: immediately after the purge step of an evaluate-respond pass with
reference time `now`, every signal left in the store is at most 5 minutes
old; and if every stored signal was strictly older than the window, the
store comes out empty and the level recomputed on that pass is CALM. -/
theorem purge_retains_only_fresh_signals (st : AgentState) (now : ℚ)
    (noise : Noise3) :
    (∀ s ∈ (evaluate_and_respond st now noise).1.signals,
        now - s.timestamp ≤ 300) ∧
    ((∀ s ∈ st.signals, now - s.timestamp > 300) →
      (evaluate_and_respond st now noise).1.signals = [] ∧
      (evaluate_and_respond st now noise).1.currentLevel = .CALM) := by
  constructor
  · intro s hs
    rw [evalRespond_signals] at hs
    unfold purge at hs
    rw [List.mem_filter] at hs
    have hlt := of_decide_eq_true hs.2
    linarith
  · intro hall
    have hpurge : purge now st.signals = [] := by
      unfold purge
      rw [List.filter_eq_nil_iff]
      intro s hs
      have hgt := hall s hs
      simp only [decide_eq_true_eq]
      intro hcontra
      linarith
    refine ⟨by rw [evalRespond_signals, hpurge], ?_⟩
    rw [evalRespond_currentLevel, hpurge]
    rfl

/-- An agent holding one signal reported at time 0, evaluated at time 1000:
the whole store is stale. -/
def staleState : AgentState :=
  { freshAgent with
    signals := [ { timestamp := 0, detection_type := .TRACKER_DOMAIN,
                   source := "tracker.example", confidence := 9/10 } ] }

/-- C7 witnessed: the stale store purges to empty and re-evaluates CALM. -/
theorem purge_retains_only_fresh_signals_witness :
    (∀ s ∈ staleState.signals, (1000 : ℚ) - s.timestamp > 300) ∧
    ((evaluate_and_respond staleState 1000 ⟨0, 0, 0⟩).1.signals = [] ∧
     (evaluate_and_respond staleState 1000 ⟨0, 0, 0⟩).1.currentLevel =
       .CALM) := by
  have hall : ∀ s ∈ staleState.signals, (1000 : ℚ) - s.timestamp > 300 := by
    intro s hs
    simp only [staleState, List.mem_singleton] at hs
    rw [hs]
    norm_num
  exact ⟨hall, (purge_retains_only_fresh_signals staleState 1000 ⟨0, 0, 0⟩).2
    hall⟩

/-! ## C9: the threat_level_change payload -/

/-- C9: whenever an evaluate-respond pass emits a `threat_level_change`
event, the payload's `old` field equals its `new` field — both hold the new
level — because `_current_threat_level` is overwritten before the payload
dict is built. -/
theorem level_change_event_old_equals_new (st : AgentState) (now : ℚ)
    (noise : Noise3) (e : LevelChangeEvent)
    (h : (evaluate_and_respond st now noise).2 = some e) :
    e.old = e.new := by
  unfold evaluate_and_respond at h
  dsimp only at h
  split_ifs at h with hc
  rw [Option.some.injEq] at h
  subst h
  dsimp only
  rw [apply_directive_currentLevel]

/-- Four WebRTC-leak signals at full confidence reported at time `t`: enough
to drive the score to 16 ≥ 15, i.e. CRITICAL. -/
def escalatingSignals (t : ℚ) : List ThreatSignal :=
  List.replicate 4
    { timestamp := t, detection_type := .WEBRTC_LEAK,
      source := "stun.example", confidence := 1 }

/-- A fresh agent that has just received the four CRITICAL-driving signals. -/
def escalatingState : AgentState :=
  { freshAgent with signals := escalatingSignals 0 }

/-- The event the escalating pass emits: both level fields read CRITICAL. -/
def witnessEvent : LevelChangeEvent :=
  { old := .CRITICAL, new := .CRITICAL,
    response := decide_response .CRITICAL ⟨0, 0, 0⟩ }

/-- C9 witnessed: the escalating pass emits an event whose `old` equals its
`new`. -/
theorem level_change_event_old_equals_new_witness :
    (evaluate_and_respond escalatingState 0 ⟨0, 0, 0⟩).2 = some witnessEvent ∧
    witnessEvent.old = witnessEvent.new := by
  have h : (evaluate_and_respond escalatingState 0 ⟨0, 0, 0⟩).2 =
      some witnessEvent := by
    have hne : (ThreatLevel.CRITICAL = ThreatLevel.CALM) = False := by
      simp
    norm_num [evaluate_and_respond, escalatingState, escalatingSignals,
      freshAgent, purge, List.filter, evaluate_threat, threatScore,
      signalContribution, severity, scoreToLevel, witnessEvent,
      List.replicate, hne, apply_directive_currentLevel]
  exact ⟨h, level_change_event_old_equals_new escalatingState 0 ⟨0, 0, 0⟩
    witnessEvent h⟩

/-! ## C4: error handling in directive application -/

lemma execute_response_noFaults (st : AgentState) (r : ResponseDirective)
    (now : ℚ) :
    execute_response noFaults st r now = Except.ok (apply_directive st r now) := by
  simp only [execute_response, apply_directive, rotateStep, methodsStep,
    phantomsStep, noFaults, Bool.false_eq_true, and_false, if_false]

/-- C4 counterexample: applying the CRITICAL directive (which rotates) with a
failing `rotate_profile` collaborator makes `_execute_response` propagate the
error — the result is `Except.error` at the unchanged agent state, not a
success.  The remaining steps (method activation, phantom generation) and the
`_threats_mitigated` increment did not execute: the method body contains no
try/except, refuting the claim that a step error is caught and logged with
the other steps still running. -/
theorem execute_response_error_propagates_counterexample :
    execute_response
      { rotate_fails := true, set_methods_fails := false,
        phantoms_fails := false }
      freshAgent (decide_response .CRITICAL ⟨0, 0, 0⟩) 0 =
      Except.error (CollabError.rotateFailed, freshAgent) := rfl

/-- C4 amended: whichever one of the three application steps raises, the
error propagates out of `_execute_response` uncaught — the steps after the
failing one are skipped, the in-place effects of the steps before it persist
on the agent, and no mitigation is counted.  (The error is caught only by the
agent loop’s per-iteration handler.)  The three conjuncts are the three
failing steps: fingerprint rotation (state unchanged), method activation
(rotation effects persist), phantom generation (rotation and activation
effects persist). -/
theorem execute_response_step_error_propagates (f : CollabFaults)
    (st : AgentState) (r : ResponseDirective) (now : ℚ) :
    (r.rotate_fingerprint = true → f.rotate_fails = true →
      execute_response f st r now =
        Except.error (CollabError.rotateFailed, st)) ∧
    (f.rotate_fails = false → r.active_methods.isEmpty = false →
      f.set_methods_fails = true →
      execute_response f st r now =
        Except.error (CollabError.setMethodsFailed, rotateStep st r now)) ∧
    (f.rotate_fails = false → f.set_methods_fails = false →
      0 < r.phantom_count → f.phantoms_fails = true →
      execute_response f st r now =
        Except.error (CollabError.phantomsFailed,
          methodsStep (rotateStep st r now) r)) := by
  refine ⟨?_, ?_, ?_⟩
  · intro h1 h2
    unfold execute_response
    rw [if_pos ⟨h1, h2⟩]
  · intro h1 h2 h3
    unfold execute_response
    rw [if_neg (by simp [h1]), if_pos ⟨h2, h3⟩]
  · intro h1 h2 h3 h4
    unfold execute_response
    rw [if_neg (by simp [h1]), if_neg (by simp [h2]), if_pos ⟨h3, h4⟩]

/-- C4 amended, witnessed on the CRITICAL directive (which rotates, activates
all 10 methods, and requests 20 phantoms) with each of the three collaborator
calls failing in turn. -/
theorem execute_response_step_error_propagates_witness :
    ((decide_response .CRITICAL ⟨0, 0, 0⟩).rotate_fingerprint = true ∧
     execute_response ⟨true, false, false⟩ freshAgent
       (decide_response .CRITICAL ⟨0, 0, 0⟩) 0 =
       Except.error (CollabError.rotateFailed, freshAgent)) ∧
    ((decide_response .CRITICAL ⟨0, 0, 0⟩).active_methods.isEmpty = false ∧
     execute_response ⟨false, true, false⟩ freshAgent
       (decide_response .CRITICAL ⟨0, 0, 0⟩) 0 =
       Except.error (CollabError.setMethodsFailed,
         rotateStep freshAgent (decide_response .CRITICAL ⟨0, 0, 0⟩) 0)) ∧
    (0 < (decide_response .CRITICAL ⟨0, 0, 0⟩).phantom_count ∧
     execute_response ⟨false, false, true⟩ freshAgent
       (decide_response .CRITICAL ⟨0, 0, 0⟩) 0 =
       Except.error (CollabError.phantomsFailed,
         methodsStep
           (rotateStep freshAgent (decide_response .CRITICAL ⟨0, 0, 0⟩) 0)
           (decide_response .CRITICAL ⟨0, 0, 0⟩))) :=
  ⟨⟨rfl,
    (execute_response_step_error_propagates ⟨true, false, false⟩ freshAgent
      (decide_response .CRITICAL ⟨0, 0, 0⟩) 0).1 rfl rfl⟩,
   ⟨rfl,
    (execute_response_step_error_propagates ⟨false, true, false⟩ freshAgent
      (decide_response .CRITICAL ⟨0, 0, 0⟩) 0).2.1 rfl rfl rfl⟩,
   ⟨by decide,
    (execute_response_step_error_propagates ⟨false, false, true⟩ freshAgent
      (decide_response .CRITICAL ⟨0, 0, 0⟩) 0).2.2 rfl rfl (by decide) rfl⟩⟩

/-! ## C10: scheduled rotations never precede directive rotations -/

/-- The agent state produced by the evaluate-respond part of one loop
iteration: newly reported signals merged in, then `_evaluate_and_respond`. -/
def loopEval (st : AgentState) (inp : LoopInput) : AgentState :=
  (evaluate_and_respond { st with signals := st.signals ++ inp.newSignals }
    inp.now inp.noise).1

lemma loopStep_eq (st : AgentState) (inp : LoopInput) :
    loopStep st inp =
      (if scheduledDue (loopEval st inp) inp.now then
         { loopEval st inp with
           fingerprintRotations := (loopEval st inp).fingerprintRotations + 1
           lastRotation := some inp.now
           actions :=
             (loopEval st inp).actions ++ [StepAction.scheduled_rotation] }
       else loopEval st inp,
       { directiveRotated :=
           decide (st.fingerprintRotations <
             (loopEval st inp).fingerprintRotations)
         scheduledRotated := scheduledDue (loopEval st inp) inp.now }) := rfl

lemma scheduledDue_needs_lastRotation (st1 : AgentState) (now : ℚ)
    (h : scheduledDue st1 now = true) : st1.lastRotation ≠ none := by
  intro hn
  unfold scheduledDue at h
  rcases hcr : st1.currentResponse with _ | r <;> rw [hcr] at h
  · simp at h
  · rw [hn] at h
    simp at h

lemma evalRespond_rotation_dichotomy (st : AgentState) (now : ℚ)
    (noise : Noise3) :
    ((evaluate_and_respond st now noise).1.lastRotation = st.lastRotation ∧
     (evaluate_and_respond st now noise).1.fingerprintRotations =
       st.fingerprintRotations) ∨
    ((evaluate_and_respond st now noise).1.lastRotation = some now ∧
     (evaluate_and_respond st now noise).1.fingerprintRotations =
       st.fingerprintRotations + 1) := by
  unfold evaluate_and_respond
  dsimp only
  split_ifs with h
  · by_cases hr :
        (decide_response (evaluate_threat (purge now st.signals) now)
          noise).rotate_fingerprint = true
    · right
      exact apply_directive_rotate_true _ _ now hr
    · left
      have hr' : (decide_response (evaluate_threat (purge now st.signals) now)
          noise).rotate_fingerprint = false := by
        revert hr
        cases (decide_response (evaluate_threat (purge now st.signals) now)
          noise).rotate_fingerprint <;> simp
      exact apply_directive_rotate_false _ _ now hr'
  · left
    exact ⟨rfl, rfl⟩

lemma loopEval_rotation_dichotomy (st : AgentState) (inp : LoopInput) :
    ((loopEval st inp).lastRotation = st.lastRotation ∧
     (loopEval st inp).fingerprintRotations = st.fingerprintRotations) ∨
    ((loopEval st inp).lastRotation = some inp.now ∧
     (loopEval st inp).fingerprintRotations = st.fingerprintRotations + 1) :=
  evalRespond_rotation_dichotomy
    { st with signals := st.signals ++ inp.newSignals } inp.now inp.noise

lemma loopStep_scheduled_forces_directive (st : AgentState) (inp : LoopInput)
    (h0 : st.lastRotation = none)
    (hs : (loopStep st inp).2.scheduledRotated = true) :
    (loopStep st inp).2.directiveRotated = true := by
  rw [loopStep_eq] at hs ⊢
  dsimp only at hs ⊢
  rcases loopEval_rotation_dichotomy st inp with ⟨hl, _⟩ | ⟨_, hrot⟩
  · exact absurd (hl.trans h0) (scheduledDue_needs_lastRotation _ _ hs)
  · rw [decide_eq_true_eq, hrot]
    exact Nat.lt_succ_self _

lemma loopStep_no_directive_keeps_none (st : AgentState) (inp : LoopInput)
    (h0 : st.lastRotation = none)
    (hd : (loopStep st inp).2.directiveRotated = false) :
    (loopStep st inp).1.lastRotation = none := by
  rw [loopStep_eq] at hd ⊢
  dsimp only at hd ⊢
  rcases loopEval_rotation_dichotomy st inp with ⟨hl, _⟩ | ⟨_, hrot⟩
  · have h1 : (loopEval st inp).lastRotation = none := hl.trans h0
    have hsched : scheduledDue (loopEval st inp) inp.now = false := by
      by_contra hc
      have hc' : scheduledDue (loopEval st inp) inp.now = true := by
        revert hc
        cases scheduledDue (loopEval st inp) inp.now <;> simp
      exact scheduledDue_needs_lastRotation _ _ hc' h1
    rw [hsched]
    simp only [Bool.false_eq_true, if_false]
    exact h1
  · exfalso
    rw [hrot] at hd
    simp [Nat.lt_succ_self] at hd

lemma runLoop_cons (st : AgentState) (inp : LoopInput)
    (rest : List LoopInput) :
    (runLoop st (inp :: rest)).2 =
      (loopStep st inp).2 :: (runLoop (loopStep st inp).1 rest).2 := rfl

lemma runLoop_no_scheduled_before_directive (inputs : List LoopInput) :
    ∀ st : AgentState, st.lastRotation = none → ∀ i : ℕ,
      (((runLoop st inputs).2).getD i ⟨false, false⟩).scheduledRotated = true →
      ∃ j, j ≤ i ∧
        (((runLoop st inputs).2).getD j ⟨false, false⟩).directiveRotated =
          true := by
  induction inputs with
  | nil =>
    intro st h0 i hi
    simp [runLoop] at hi
  | cons inp rest ih =>
    intro st h0 i hi
    rw [runLoop_cons] at hi ⊢
    cases i with
    | zero =>
      rw [List.getD_cons_zero] at hi
      exact ⟨0, le_refl 0, by
        rw [List.getD_cons_zero]
        exact loopStep_scheduled_forces_directive st inp h0 hi⟩
    | succ k =>
      rw [List.getD_cons_succ] at hi
      by_cases hd : (loopStep st inp).2.directiveRotated = true
      · exact ⟨0, Nat.zero_le _, by rw [List.getD_cons_zero]; exact hd⟩
      · have hd' : (loopStep st inp).2.directiveRotated = false := by
          revert hd
          cases (loopStep st inp).2.directiveRotated <;> simp
        have h1 : (loopStep st inp).1.lastRotation = none :=
          loopStep_no_directive_keeps_none st inp h0 hd'
        obtain ⟨j, hj, hdir⟩ := ih (loopStep st inp).1 h1 k hi
        exact ⟨j + 1, Nat.succ_le_succ hj, by
          rw [List.getD_cons_succ]
          exact hdir⟩

/-- C10: starting the agent loop from a fresh agent (whose `_last_rotation`
is `None`), an interval-based scheduled rotation never occurs before the
first directive-driven rotation: whenever iteration `i` of any run performs a
scheduled rotation, some iteration `j ≤ i` performed a directive-driven
rotation (within one iteration the directive application precedes the
scheduled-rotation check). -/
theorem scheduled_rotation_requires_prior_directive_rotation
    (inputs : List LoopInput) (i : ℕ)
    (h : (((runLoop freshAgent inputs).2).getD i
        ⟨false, false⟩).scheduledRotated = true) :
    ∃ j, j ≤ i ∧
      (((runLoop freshAgent inputs).2).getD j
        ⟨false, false⟩).directiveRotated = true :=
  runLoop_no_scheduled_before_directive inputs freshAgent rfl i h

/-- The CRITICAL directive composed from the zero draw, evaluated. -/
def dirCritW : ResponseDirective :=
  { rotate_fingerprint := true, chaos_intensity := 9/10,
    active_methods := allTelemetryMethods, rotation_interval := 84,
    dns_chaff_rate := 20, phantom_count := 20 }

lemma dirCritW_eq : decide_response .CRITICAL ⟨0, 0, 0⟩ = dirCritW := by
  norm_num [decide_response, dirCritW, pyTrunc]

/-- First witness iteration: time 0, the four CRITICAL-driving signals. -/
def inpW1 : LoopInput :=
  { now := 0, newSignals := escalatingSignals 0, noise := ⟨0, 0, 0⟩ }

/-- Second witness iteration: time 90, four fresh signals keep CRITICAL. -/
def inpW2 : LoopInput :=
  { now := 90, newSignals := escalatingSignals 90, noise := ⟨0, 0, 0⟩ }

/-- The two-iteration input schedule for the C10 witness. -/
def loopInputsW : List LoopInput := [inpW1, inpW2]

/-- Agent state after the first witness iteration. -/
def stA : AgentState :=
  { signals := escalatingSignals 0
    currentLevel := .CRITICAL
    currentResponse := some dirCritW
    lastRotation := some 0
    fingerprintRotations := 1
    threatsMitigated := 1
    actions := [StepAction.fingerprint_rotation,
                StepAction.telemetry_methods_updated,
                StepAction.phantom_swarm_deployed] }

/-- Agent state after the evaluate-respond part of the second iteration. -/
def stB : AgentState :=
  { stA with signals := escalatingSignals 0 ++ escalatingSignals 90 }

lemma purge_escalating_zero :
    purge 0 (escalatingSignals 0) = escalatingSignals 0 := by
  unfold purge
  rw [List.filter_eq_self]
  intro s hs
  rw [escalatingSignals, List.mem_replicate] at hs
  rw [hs.2, decide_eq_true_eq]
  norm_num

lemma purge_escalating_append :
    purge 90 (escalatingSignals 0 ++ escalatingSignals 90) =
      escalatingSignals 0 ++ escalatingSignals 90 := by
  unfold purge
  rw [List.filter_eq_self]
  intro s hs
  rw [List.mem_append, escalatingSignals, escalatingSignals,
      List.mem_replicate, List.mem_replicate] at hs
  rcases hs with h | h <;> rw [h.2, decide_eq_true_eq] <;> norm_num

lemma level_escalating_zero :
    evaluate_threat (escalatingSignals 0) 0 = .CRITICAL := by
  unfold evaluate_threat escalatingSignals
  rw [if_neg (by simp)]
  norm_num [threatScore, List.map_replicate, List.sum_replicate,
    signalContribution, severity, scoreToLevel, max_eq_right, nsmul_eq_mul]

lemma level_escalating_append :
    evaluate_threat (escalatingSignals 0 ++ escalatingSignals 90) 90 =
      .CRITICAL := by
  unfold evaluate_threat escalatingSignals
  rw [if_neg (by simp)]
  norm_num [threatScore, List.map_append, List.sum_append, List.map_replicate,
    List.sum_replicate, signalContribution, severity, scoreToLevel,
    max_eq_right, nsmul_eq_mul]

lemma loopEval_witness_one : loopEval freshAgent inpW1 = stA := by
  have hne : (ThreatLevel.CRITICAL = ThreatLevel.CALM) = False := by simp
  norm_num [loopEval, inpW1, freshAgent, evaluate_and_respond,
    purge_escalating_zero, level_escalating_zero, hne, dirCritW_eq,
    apply_directive, dirCritW, allTelemetryMethods, stA]

lemma scheduledDue_stA : scheduledDue stA 0 = false := by
  norm_num [scheduledDue, stA, dirCritW]

lemma loopStep_witness_one_fst : (loopStep freshAgent inpW1).1 = stA := by
  rw [loopStep_eq]
  dsimp only
  rw [loopEval_witness_one]
  have hs : scheduledDue stA inpW1.now = false := scheduledDue_stA
  rw [hs]
  simp only [Bool.false_eq_true, if_false]

lemma loopEval_witness_two : loopEval stA inpW2 = stB := by
  norm_num [loopEval, inpW2, stA, stB, evaluate_and_respond,
    purge_escalating_append, level_escalating_append, dirCritW]

lemma scheduledDue_stB : scheduledDue stB 90 = true := by
  norm_num [scheduledDue, stB, stA, dirCritW]

/-- C10 witnessed: with the four CRITICAL-driving signals at time 0 the first
iteration performs a directive rotation; at time 90 the level is unchanged
and the 84-second interval has elapsed, so the second iteration performs a
scheduled rotation — and a directive rotation is found at iteration 0. -/
theorem scheduled_rotation_requires_prior_directive_rotation_witness :
    (((runLoop freshAgent loopInputsW).2).getD 1
        ⟨false, false⟩).scheduledRotated = true ∧
    ∃ j, j ≤ 1 ∧
      (((runLoop freshAgent loopInputsW).2).getD j
        ⟨false, false⟩).directiveRotated = true := by
  have hlist : (runLoop freshAgent loopInputsW).2 =
      (loopStep freshAgent inpW1).2 ::
        (loopStep (loopStep freshAgent inpW1).1 inpW2).2 :: [] := rfl
  have h : (((runLoop freshAgent loopInputsW).2).getD 1
      ⟨false, false⟩).scheduledRotated = true := by
    rw [hlist, List.getD_cons_succ, List.getD_cons_zero,
        loopStep_witness_one_fst, loopStep_eq]
    dsimp only
    have hs : scheduledDue (loopEval stA inpW2) inpW2.now = true := by
      rw [loopEval_witness_two]
      exact scheduledDue_stB
    exact hs
  exact ⟨h, scheduled_rotation_requires_prior_directive_rotation loopInputsW
    1 h⟩
